import Mathlib

/-!
Shallow embedding of the brand-audit extraction pipeline
(`src/lib/websiteAnalyzer.ts`, `src/lib/visualExtractor.ts`,
`src/lib/aiAnalyzer.ts` and the `/api/analyze` batch route).

JavaScript strings are modelled as Lean `String`; regular-expression
scanning is embedded as explicit fuel-bounded scanners over `List Char`
with the same left-to-right, continue-after-match semantics as a
JavaScript global regex.  Network and browser effects are modelled as
explicit oracles (`Env` fields, `Except`-valued attempt parameters);
`Math.random()` draws are modelled as an explicit `rand : Nat` argument
(the code uses `Math.floor(Math.random() * 3)`, i.e. `rand % 3`).
-/

namespace BrandAudit

/-- Returns `1` when the JS condition is truthy, else `0` (used by the scorer's
`if (...) score += 1` steps). -/
def b2n (b : Bool) : Nat := if b then 1 else 0

/-- JS `String.prototype.includes`: substring test. -/
def containsStr (hay needle : String) : Bool :=
  decide (needle.toList <:+: hay.toList)

/-! String primitives are implemented over `s.toList` (the built-in
`String` byte-position loops do not reduce definitionally, which would
block concrete evaluation in the kernel). -/

/-- JS `.toLowerCase()`. -/
def lowerStr (s : String) : String := String.mk (s.toList.map Char.toLower)

/-- JS `.toUpperCase()`. -/
def upperStr (s : String) : String := String.mk (s.toList.map Char.toUpper)

/-- JS `.trim()`. -/
def trimStr (s : String) : String :=
  String.mk (((s.toList.dropWhile Char.isWhitespace).reverse.dropWhile
    Char.isWhitespace).reverse)

/-- Case-sensitive literal match. -/
def matchLit : List Char → List Char → Option (List Char)
  | [], l => some l
  | _ :: _, [] => none
  | p :: ps, c :: cs => if p = c then matchLit ps cs else none

/-- JS `.startsWith(p)`. -/
def strStartsWith (s p : String) : Bool := (matchLit p.toList s.toList).isSome

/-- JS falsiness of a string (empty string is falsy). -/
def strEmpty (s : String) : Bool := s.toList.isEmpty

/-- Fuel-bounded worker for `dedupFirst` (fuel-structural so that the
kernel can evaluate it; the fuel is the list length, which every step
consumes at least one element of). -/
def dedupFirstAux {α : Type} [DecidableEq α] : Nat → List α → List α
  | 0, _ => []
  | _, [] => []
  | fuel + 1, x :: xs => x :: dedupFirstAux fuel (xs.filter (fun y => y ≠ x))

/-- Models `new Set([...])` insertion-order semantics: keep the first occurrence
of every element, drop later exact duplicates. -/
def dedupFirst {α : Type} [DecidableEq α] (l : List α) : List α :=
  dedupFirstAux l.length l

theorem mem_dedupFirstAux {α : Type} [DecidableEq α] {a : α} :
    ∀ (fuel : Nat) (l : List α), a ∈ dedupFirstAux fuel l → a ∈ l
  | 0, _, h => by simp [dedupFirstAux] at h
  | _ + 1, [], h => by simp [dedupFirstAux] at h
  | fuel + 1, x :: xs, h => by
    rw [dedupFirstAux] at h
    rcases List.mem_cons.1 h with h1 | h1
    · exact h1 ▸ List.mem_cons_self _ _
    · exact List.mem_cons_of_mem _
        (List.mem_of_mem_filter (mem_dedupFirstAux fuel _ h1))

theorem dedupFirstAux_nodup {α : Type} [DecidableEq α] :
    ∀ (fuel : Nat) (l : List α), (dedupFirstAux fuel l).Nodup
  | 0, _ => by simp [dedupFirstAux]
  | _ + 1, [] => by simp [dedupFirstAux]
  | fuel + 1, x :: xs => by
    rw [dedupFirstAux]
    refine List.nodup_cons.2 ⟨fun hmem => ?_, dedupFirstAux_nodup fuel _⟩
    have := List.of_mem_filter (mem_dedupFirstAux fuel _ hmem)
    simp at this

theorem dedupFirst_nodup {α : Type} [DecidableEq α] (l : List α) :
    (dedupFirst l).Nodup :=
  dedupFirstAux_nodup l.length l

/-! ### Regex-scanner infrastructure

JavaScript regexes used by the source are embedded as explicit scanners
over `List Char`.  A "step" function tries to match at the current
position; global regexes resume after each match (`scanAll`), non-global
regexes return the first match (`scanFirst`).  All scanners are
fuel-bounded by the input length, which every step consumes at least one
character of. -/

/-- The single-quote character (written via its code point to keep the
source free of quote-literal noise). -/
def quoteChar : Char := Char.ofNat 39

/-- A character matched by the JS character class `["']`. -/
def isQuote (c : Char) : Bool := c = '"' || c = quoteChar

/-- Case-insensitive literal match: consume `pat` case-insensitively from
the front of `l`, returning the remainder on success (models the `/i`
flag on a literal part of a pattern). -/
def matchLitCI : List Char → List Char → Option (List Char)
  | [], l => some l
  | _ :: _, [] => none
  | p :: ps, c :: cs => if p.toLower = c.toLower then matchLitCI ps cs else none

/-- All matches of `step`, scanning left to right and resuming after each
match, like a JS global (`/g`) regex. -/
def scanAll {α : Type} (step : List Char → Option (α × List Char)) :
    Nat → List Char → List α
  | 0, _ => []
  | _, [] => []
  | fuel + 1, l@(_ :: rest) =>
    match step l with
    | some (a, rest2) => a :: scanAll step fuel rest2
    | none => scanAll step fuel rest

/-- First match of `step`, scanning left to right (JS non-global regex). -/
def scanFirst {α : Type} (step : List Char → Option α) :
    Nat → List Char → Option α
  | 0, _ => none
  | _, [] => none
  | fuel + 1, l@(_ :: rest) =>
    match step l with
    | some a => some a
    | none => scanFirst step fuel rest

/-- Find the first occurrence of the (case-insensitive) closing literal
`pat`, returning the characters before it and the remainder after it
(the lazy `[\s\S]*?` + closing-tag part of a pattern). -/
def findCloseSplitCI (pat : List Char) : Nat → List Char → Option (List Char × List Char)
  | 0, _ => none
  | _, [] => none
  | fuel + 1, l@(c :: rest) =>
    match matchLitCI pat l with
    | some r => some ([], r)
    | none =>
      match findCloseSplitCI pat fuel rest with
      | some (inner, after) => some (c :: inner, after)
      | none => none

/-! ### websiteAnalyzer.ts — parseHTMLContent and helpers -/

/-- One item of `recentContent` as built by `extractRecentContent`. -/
structure RecentItem where
  type : String
  title : String
  date : String
  source : String
deriving Repr, DecidableEq

/-- The `WebsiteData` interface of websiteAnalyzer.ts (the optional
`structuredData`/`performance` members are never populated by the code
and are omitted). -/
structure WebsiteData where
  url : String
  title : String
  metaDescription : String
  metaKeywords : String
  headings : List String
  content : String
  links : List String
  images : List String
  detectedIndustry : String
  recentContent : List RecentItem
deriving Repr, DecidableEq

/-- Step for `/<title[^>]*>([^<]+)<\/title>/i`. -/
def titleStep (l : List Char) : Option String :=
  match matchLitCI "<title".toList l with
  | none => none
  | some r1 =>
    let attrs := r1.takeWhile (fun c => c ≠ '>')
    match r1.drop attrs.length with
    | '>' :: r3 =>
      let captured := r3.takeWhile (fun c => c ≠ '<')
      if captured.isEmpty then none
      else
        match matchLitCI "</title>".toList (r3.drop captured.length) with
        | some _ => some (String.mk captured)
        | none => none
    | _ => none

/-- Step matching `name=["']<nm>["']` (case-insensitive, and as in the JS
pattern the two quotes need not be the same character). -/
def metaNameStep (nm : List Char) (l : List Char) : Option (List Char) :=
  match matchLitCI "name=".toList l with
  | none => none
  | some (q :: r2) =>
    if isQuote q then
      match matchLitCI nm r2 with
      | some (q2 :: r3) => if isQuote q2 then some r3 else none
      | _ => none
    else none
  | some [] => none

/-- Step matching `content=["']([^"']+)["']` and returning the capture. -/
def metaContentStep (l : List Char) : Option String :=
  match matchLitCI "content=".toList l with
  | none => none
  | some (q :: r2) =>
    if isQuote q then
      let captured := r2.takeWhile (fun c => !isQuote c)
      if captured.isEmpty then none
      else
        match r2.drop captured.length with
        | q2 :: _ => if isQuote q2 then some (String.mk captured) else none
        | [] => none
    else none
  | some [] => none

/-- Step for `/<meta[^>]*name=["']<nm>["'][^>]*content=["']([^"']+)["'][^>]*>/i`.
The match is resolved inside the region up to the tag's closing `>`
(a `>` inside the quoted content value is not modelled). -/
def metaStep (nm : List Char) (l : List Char) : Option String :=
  match matchLitCI "<meta".toList l with
  | none => none
  | some r1 =>
    let region := r1.takeWhile (fun c => c ≠ '>')
    match r1.drop region.length with
    | '>' :: _ =>
      match scanFirst (metaNameStep nm) region.length region with
      | none => none
      | some afterName => scanFirst metaContentStep afterName.length afterName
    | _ => none

def isDigit13 (c : Char) : Bool := c = '1' || c = '2' || c = '3'

def isDigit14 (c : Char) : Bool := isDigit13 c || c = '4'

/-- Step for `/<h[1-3][^>]*>([^<]+)<\/h[1-3]>/gi`, returning the captured
inner text and the remainder after the match (as in the regex, the
closing digit is any of 1–3, not necessarily the opening one). -/
def headingStep (l : List Char) : Option (String × List Char) :=
  match l with
  | '<' :: c1 :: d :: r1 =>
    if c1.toLower = 'h' && isDigit13 d then
      let attrs := r1.takeWhile (fun c => c ≠ '>')
      match r1.drop attrs.length with
      | '>' :: r3 =>
        let captured := r3.takeWhile (fun c => c ≠ '<')
        if captured.isEmpty then none
        else
          match r3.drop captured.length with
          | '<' :: s1 :: c2 :: d2 :: '>' :: r4 =>
            if s1 = '/' && c2.toLower = 'h' && isDigit13 d2 then
              some (String.mk captured, r4)
            else none
          | _ => none
      | _ => none
    else none
  | _ => none

/-- Step for `/<h[1-4][^>]*>([^<]+)<\/h[1-4]>/i` (first match only, used on
an article's text by `extractRecentContent`). -/
def heading14Step (l : List Char) : Option String :=
  match l with
  | '<' :: c1 :: d :: r1 =>
    if c1.toLower = 'h' && isDigit14 d then
      let attrs := r1.takeWhile (fun c => c ≠ '>')
      match r1.drop attrs.length with
      | '>' :: r3 =>
        let captured := r3.takeWhile (fun c => c ≠ '<')
        if captured.isEmpty then none
        else
          match r3.drop captured.length with
          | '<' :: s1 :: c2 :: d2 :: '>' :: _ =>
            if s1 = '/' && c2.toLower = 'h' && isDigit14 d2 then
              some (String.mk captured)
            else none
          | _ => none
      | _ => none
    else none
  | _ => none

/-- Embeds `html.replace(/<script[^>]*>[\s\S]*?<\/script>/gi, '')` (and the same
for `style`): drop every open-tag/lazy-body/close-tag section. -/
def removeTagSections (tag : String) : Nat → List Char → List Char
  | 0, l => l
  | _, [] => []
  | fuel + 1, l@(c :: rest) =>
    match matchLitCI ("<" ++ tag).toList l with
    | some r1 =>
      let attrs := r1.takeWhile (fun x => x ≠ '>')
      match r1.drop attrs.length with
      | '>' :: r3 =>
        match findCloseSplitCI ("</" ++ tag ++ ">").toList r3.length r3 with
        | some (_, after) => removeTagSections tag fuel after
        | none => c :: removeTagSections tag fuel rest
      | _ => c :: removeTagSections tag fuel rest
    | none => c :: removeTagSections tag fuel rest

/-- Embeds `.replace(/<[^>]+>/g, ' ')`. -/
def stripTags : Nat → List Char → List Char
  | 0, l => l
  | _, [] => []
  | fuel + 1, c :: rest =>
    if c = '<' then
      let inner := rest.takeWhile (fun x => x ≠ '>')
      if inner.isEmpty then c :: stripTags fuel rest
      else
        match rest.drop inner.length with
        | '>' :: r2 => ' ' :: stripTags fuel r2
        | _ => c :: stripTags fuel rest
    else c :: stripTags fuel rest

/-- Embeds `.replace(/\s+/g, ' ')`. -/
def collapseWs : Nat → List Char → List Char
  | 0, l => l
  | _, [] => []
  | fuel + 1, c :: rest =>
    if c.isWhitespace then ' ' :: collapseWs fuel (rest.dropWhile Char.isWhitespace)
    else c :: collapseWs fuel rest

/-- Step for `/href=["']([^"']+)["']/gi` combined with the per-match
`replace` that keeps only the captured URL. -/
def hrefStep (l : List Char) : Option (String × List Char) :=
  match matchLitCI "href=".toList l with
  | none => none
  | some (q :: r2) =>
    if isQuote q then
      let captured := r2.takeWhile (fun c => !isQuote c)
      if captured.isEmpty then none
      else
        match r2.drop captured.length with
        | q2 :: r3 => if isQuote q2 then some (String.mk captured, r3) else none
        | [] => none
    else none
  | some [] => none

/-- Step matching `src=["']([^"']+)["']` inside an `img` tag region. -/
def srcStep (l : List Char) : Option (String × List Char) :=
  match matchLitCI "src=".toList l with
  | none => none
  | some (q :: r2) =>
    if isQuote q then
      let captured := r2.takeWhile (fun c => !isQuote c)
      if captured.isEmpty then none
      else
        match r2.drop captured.length with
        | q2 :: r3 => if isQuote q2 then some (String.mk captured, r3) else none
        | [] => none
    else none
  | some [] => none

/-- Step for `/<img[^>]*src=["']([^"']+)["'][^>]*>/gi`.  The greedy
`[^>]*` before `src=` makes the JS engine commit to the last `src`
attribute inside the tag region. -/
def imgStep (l : List Char) : Option (String × List Char) :=
  match matchLitCI "<img".toList l with
  | none => none
  | some r1 =>
    let region := r1.takeWhile (fun c => c ≠ '>')
    match r1.drop region.length with
    | '>' :: after =>
      match (scanAll srcStep region.length region).getLast? with
      | some src => some (src, after)
      | none => none
    | _ => none

def isDateSep (c : Char) : Bool := c = '-' || c = '/'

/-- Trailing `\d{1,2}` of the date pattern: greedy two digits, else one. -/
def dateFinal12 (l : List Char) : Option (List Char) :=
  match l with
  | a :: b :: _ =>
    if a.isDigit && b.isDigit then some [a, b]
    else if a.isDigit then some [a] else none
  | [a] => if a.isDigit then some [a] else none
  | [] => none

/-- Part `\d{1,2}[-\/]` with the regex backtracking: try two digits then a
separator, else one digit then a separator.  Returns the consumed
characters and the remainder. -/
def dateMid12 (l : List Char) : Option (List Char × List Char) :=
  match l with
  | a :: b :: s :: rest =>
    if a.isDigit && b.isDigit && isDateSep s then some ([a, b, s], rest)
    else if a.isDigit && isDateSep b then some ([a, b], s :: rest)
    else none
  | [a, b] => if a.isDigit && isDateSep b then some ([a, b], []) else none
  | _ => none

/-- Pattern `\d{4}[-\/]\d{1,2}[-\/]\d{1,2}` at the current position. -/
def dateStepA (l : List Char) : Option String :=
  match l with
  | a :: b :: c :: d :: s :: rest =>
    if a.isDigit && b.isDigit && c.isDigit && d.isDigit && isDateSep s then
      match dateMid12 rest with
      | some (mid, rest2) =>
        match dateFinal12 rest2 with
        | some fin => some (String.mk ([a, b, c, d, s] ++ mid ++ fin))
        | none => none
      | none => none
    else none
  | _ => none

/-- Pattern `\d{1,2}[-\/]\d{1,2}[-\/]\d{4}` at the current position. -/
def dateStepB (l : List Char) : Option String :=
  match dateMid12 l with
  | some (m1, r1) =>
    match dateMid12 r1 with
    | some (m2, r2) =>
      match r2 with
      | a :: b :: c :: d :: _ =>
        if a.isDigit && b.isDigit && c.isDigit && d.isDigit then
          some (String.mk (m1 ++ m2 ++ [a, b, c, d]))
        else none
      | _ => none
    | none => none
  | none => none

/-- The date alternation
`/(\d{4}[-\/]\d{1,2}[-\/]\d{1,2}|\d{1,2}[-\/]\d{1,2}[-\/]\d{4})/`. -/
def dateStep (l : List Char) : Option String :=
  match dateStepA l with
  | some d => some d
  | none => dateStepB l

/-- Step for `/<article[^>]*>[\s\S]*?<\/article>/gi`, returning the full
matched text (open tag, body, close tag) and the remainder. -/
def articleStep (l : List Char) : Option (List Char × List Char) :=
  match matchLitCI "<article".toList l with
  | none => none
  | some r1 =>
    let attrs := r1.takeWhile (fun c => c ≠ '>')
    match r1.drop attrs.length with
    | '>' :: r3 =>
      match findCloseSplitCI "</article>".toList r3.length r3 with
      | some (inner, after) =>
        some (l.take (8 + attrs.length + 1 + inner.length + 10), after)
      | none => none
    | _ => none

/-- Bounded filler of `.{0,10}` (the JS dot does not match line
terminators) followed by the case-insensitive literal `target`. -/
def gapThenCI (target : List Char) : Nat → List Char → Bool
  | _, [] => false
  | 0, l => (matchLitCI target l).isSome
  | gap + 1, l@(c :: rest) =>
    if (matchLitCI target l).isSome then true
    else if c = '\n' || c = '\r' then false
    else gapThenCI target gap rest

/-- Step for `/press.{0,10}release|news.{0,10}announcement/gi` (only the
existence of a match is used by the code). -/
def pressStep (l : List Char) : Option Unit :=
  match matchLitCI "press".toList l with
  | some r => if gapThenCI "release".toList 10 r then some () else none
  | none =>
    match matchLitCI "news".toList l with
    | some r => if gapThenCI "announcement".toList 10 r then some () else none
    | none => none

/-- Embeds `extractRecentContent` of websiteAnalyzer.ts: up to three `<article>`
blocks (title from the first `h1`–`h4`, date from the date regex) plus a
generic press item when the press/news indicator matches. -/
def extractRecentContent (html : List Char) : List RecentItem :=
  let articles := (scanAll articleStep html.length html).take 3
  let items := articles.enum.map (fun p =>
    let title :=
      match scanFirst heading14Step p.2.length p.2 with
      | some t => trimStr t
      | none => "Article " ++ toString (p.1 + 1)
    let date :=
      match scanFirst dateStep p.2.length p.2 with
      | some d => d
      | none => "Recent"
    ({ type := "article", title := title, date := date, source := "website" } : RecentItem))
  items ++
    (if (scanFirst pressStep html.length html).isSome then
      [{ type := "press", title := "Recent press releases and announcements",
         date := "Recent", source := "website" }]
    else [])

/-- Embeds `detectIndustryFromContent` of websiteAnalyzer.ts: lowercase the text,
then walk the fixed category order, returning on the first category one
of whose keywords occurs as a substring. -/
def detectIndustryFromContent (text : String) : String :=
  let content := lowerStr text
  if containsStr content "health" || containsStr content "medical" ||
      containsStr content "clinical" || containsStr content "patient" ||
      containsStr content "healthcare" || containsStr content "medicine" ||
      containsStr content "pharmaceutical" || containsStr content "diagnostic" ||
      containsStr content "therapy" then
    "Healthcare & Medical"
  else if containsStr content "software" || containsStr content "technology" ||
      containsStr content "digital" || containsStr content "platform" ||
      containsStr content "cloud" || containsStr content "ai" ||
      containsStr content "artificial intelligence" || containsStr content "saas" ||
      containsStr content "tech" then
    "Technology"
  else if containsStr content "financial" || containsStr content "banking" ||
      containsStr content "investment" || containsStr content "insurance" ||
      containsStr content "finance" || containsStr content "wealth" ||
      containsStr content "trading" || containsStr content "loan" ||
      containsStr content "credit" then
    "Financial Services"
  else if containsStr content "education" || containsStr content "learning" ||
      containsStr content "university" || containsStr content "school" ||
      containsStr content "academic" || containsStr content "student" ||
      containsStr content "course" || containsStr content "training" then
    "Education"
  else if containsStr content "retail" || containsStr content "shop" ||
      containsStr content "store" || containsStr content "ecommerce" ||
      containsStr content "marketplace" || containsStr content "buy" ||
      containsStr content "sell" || containsStr content "product" then
    "Retail & E-commerce"
  else if containsStr content "consulting" || containsStr content "advisory" ||
      containsStr content "professional services" || containsStr content "strategy" ||
      containsStr content "management" || containsStr content "expertise" then
    "Consulting & Professional Services"
  else
    "General Business"

/-- Embeds `parseHTMLContent` of websiteAnalyzer.ts. -/
def parseHTMLContent (html : String) (url : String) : WebsiteData :=
  let chars := html.toList
  let title := trimStr ((scanFirst titleStep chars.length chars).getD "")
  let metaDescription :=
    trimStr ((scanFirst (metaStep "description".toList) chars.length chars).getD "")
  let metaKeywords :=
    trimStr ((scanFirst (metaStep "keywords".toList) chars.length chars).getD "")
  let headings :=
    ((scanAll headingStep chars.length chars).map trimStr).filter
      (fun h => h.length > 0)
  let noScript := removeTagSections "script" chars.length chars
  let noStyle := removeTagSections "style" noScript.length noScript
  let spaced := stripTags noStyle.length noStyle
  let collapsed := collapseWs spaced.length spaced
  let content := String.mk ((trimStr (String.mk collapsed)).toList.take 3000)
  let links :=
    ((scanAll hrefStep chars.length chars).filter
      (fun lnk => strStartsWith lnk "http" || strStartsWith lnk "/")).take 20
  let images :=
    ((scanAll imgStep chars.length chars).filter (fun src => src.length > 0)).take 10
  let detectedIndustry :=
    detectIndustryFromContent (title ++ " " ++ metaDescription ++ " " ++ content)
  let recentContent := extractRecentContent chars
  { url := url, title := title, metaDescription := metaDescription,
    metaKeywords := metaKeywords, headings := headings, content := content,
    links := links, images := images, detectedIndustry := detectedIndustry,
    recentContent := recentContent }

/-! ### visualExtractor.ts -/

/-- The `VisualAssets` interface of visualExtractor.ts (`logo?`/`favicon?`
optional members become `Option`). -/
structure VisualAssets where
  logo : Option String
  colors : List String
  fonts : List String
  screenshots : List String
  favicon : Option String
deriving Repr, DecidableEq

def isWordChar (c : Char) : Bool := c.isAlphanum || c = '_'

def isHexDigitChar (c : Char) : Bool :=
  c.isDigit || (97 ≤ c.toLower.toNat && c.toLower.toNat ≤ 102)

/-- Boundary `\b` after a run of hex digits: next char absent or not a word char. -/
def boundaryOk : List Char → Bool
  | [] => true
  | c :: _ => !isWordChar c

/-- Exactly `n` hex digits followed by a word boundary. -/
def tryHexRun (n : Nat) (l : List Char) : Option (List Char × List Char) :=
  let digits := l.take n
  if digits.length = n && digits.all isHexDigitChar && boundaryOk (l.drop n) then
    some (digits, l.drop n)
  else none

/-- Step for `/#([A-Fa-f0-9]{6}|[A-Fa-f0-9]{3})\b/g` (six digits tried
before three, as in the alternation). -/
def hexColorStep (l : List Char) : Option (String × List Char) :=
  match l with
  | '#' :: rest =>
    (match tryHexRun 6 rest with
    | some (digits, rest2) => some (String.mk ('#' :: digits), rest2)
    | none =>
      match tryHexRun 3 rest with
      | some (digits, rest2) => some (String.mk ('#' :: digits), rest2)
      | none => none)
  | _ => none

def digitsToNat (l : List Char) : Nat :=
  l.foldl (fun acc c => acc * 10 + (c.toNat - 48)) 0

/-- Lowercase hex digit, as produced by JS `Number.prototype.toString(16)`. -/
def hexDigitLower (n : Nat) : Char :=
  if n < 10 then Char.ofNat (48 + n) else Char.ofNat (87 + n)

def natToHexAux : Nat → Nat → List Char → List Char
  | 0, _, acc => acc
  | fuel + 1, n, acc =>
    if n = 0 then acc else natToHexAux fuel (n / 16) (hexDigitLower (n % 16) :: acc)

/-- JS `n.toString(16)` for a natural number. -/
def natToHex (n : Nat) : List Char :=
  if n = 0 then ['0'] else natToHexAux (n + 1) n []

/-- JS `.padStart(2, '0')`. -/
def padStart2 (l : List Char) : List Char :=
  if l.length < 2 then '0' :: l else l

/-- The template
`` `#${r.toString(16).padStart(2, '0')}${g...}${b...}` `` of
`extractColors`. -/
def rgbToHexStr (r g b : Nat) : String :=
  String.mk ('#' :: (padStart2 (natToHex r) ++ padStart2 (natToHex g) ++
    padStart2 (natToHex b)))

/-- Step for `/rgb\(\s*(\d+)\s*,\s*(\d+)\s*,\s*(\d+)\s*\)/g`, already
composed with the hex conversion applied to each match. -/
def rgbStep (l : List Char) : Option (String × List Char) :=
  match matchLit "rgb(".toList l with
  | none => none
  | some r1 =>
    let r1b := r1.dropWhile Char.isWhitespace
    let d1 := r1b.takeWhile Char.isDigit
    if d1.isEmpty then none else
    match (r1b.drop d1.length).dropWhile Char.isWhitespace with
    | ',' :: r3 =>
      let r3b := r3.dropWhile Char.isWhitespace
      let d2 := r3b.takeWhile Char.isDigit
      if d2.isEmpty then none else
      match (r3b.drop d2.length).dropWhile Char.isWhitespace with
      | ',' :: r5 =>
        let r5b := r5.dropWhile Char.isWhitespace
        let d3 := r5b.takeWhile Char.isDigit
        if d3.isEmpty then none else
        match (r5b.drop d3.length).dropWhile Char.isWhitespace with
        | ')' :: r7 =>
          some (rgbToHexStr (digitsToNat d1) (digitsToNat d2) (digitsToNat d3), r7)
        | _ => none
      | _ => none
    | _ => none

/-- Embeds `new URL(url).hostname` for the scheme-plus-host URLs this pipeline
builds: strip the scheme and stop at the first path/port/query
delimiter. -/
def hostname (url : String) : String :=
  let rest :=
    if strStartsWith url "https://" then String.mk (url.toList.drop 8)
    else if strStartsWith url "http://" then String.mk (url.toList.drop 7)
    else url
  String.mk (rest.toList.takeWhile (fun c => c ≠ '/' && c ≠ ':' && c ≠ '?' && c ≠ '#'))

/-- Embeds `generateBrandColors` of visualExtractor.ts: a domain-keyed canned
palette.  (The catch branch returns the same default palette; with the
total `hostname` model the try never throws.) -/
def generateBrandColors (url : String) : List String :=
  let domain := lowerStr (hostname url)
  if containsStr domain "health" || containsStr domain "medical" ||
      containsStr domain "care" then
    ["#0ea5e9", "#3b82f6", "#1e40af", "#64748b", "#475569"]
  else if containsStr domain "tech" || containsStr domain "software" ||
      containsStr domain "digital" then
    ["#6366f1", "#8b5cf6", "#a855f7", "#3b82f6", "#1e40af"]
  else if containsStr domain "finance" || containsStr domain "bank" ||
      containsStr domain "invest" then
    ["#059669", "#10b981", "#34d399", "#064e3b", "#065f46"]
  else if containsStr domain "food" || containsStr domain "restaurant" ||
      containsStr domain "cafe" then
    ["#ea580c", "#f97316", "#fb923c", "#dc2626", "#991b1b"]
  else
    ["#1e40af", "#3b82f6", "#0ea5e9", "#64748b", "#475569"]

/-- Embeds `extractColors` of visualExtractor.ts: regex-harvest hex and rgb()
colors from `websiteData.content`, dedupe (exact strings, insertion
order), drop the four white/black literals, cap at six — falling back to
the generated palette when nothing is left. -/
def extractColors (url : String) (websiteData : WebsiteData) : List String :=
  let chars := websiteData.content.toList
  let hexColors := scanAll hexColorStep chars.length chars
  let rgbColors := scanAll rgbStep chars.length chars
  let allColors := dedupFirst (hexColors ++ rgbColors)
  let filteredColors :=
    (allColors.filter (fun color =>
      !(["#ffffff", "#000000", "#fff", "#000"].contains (lowerStr color)))).take 6
  if filteredColors.length = 0 then generateBrandColors url else filteredColors

/-- Characters `encodeURIComponent` leaves unescaped. -/
def isUriUnreserved (c : Char) : Bool :=
  c.isAlphanum || c = '-' || c = '_' || c = '.' || c = '!' || c = '~' ||
    c = '*' || c = '(' || c = ')' || c = quoteChar

def percentHexDigit (n : Nat) : Char :=
  if n < 10 then Char.ofNat (48 + n) else Char.ofNat (55 + n)

/-- Embeds `encodeURIComponent` (ASCII model; every name fed to it here is
ASCII). -/
def encodeURIComponentStr (s : String) : String :=
  String.mk (s.toList.foldr (fun c acc =>
    if isUriUnreserved c then c :: acc
    else '%' :: percentHexDigit (c.toNat / 16) :: percentHexDigit (c.toNat % 16) :: acc) [])

/-- Embeds `generateTextLogo` of visualExtractor.ts: a via.placeholder.com URL
built from the upper-cased first label of the domain. -/
def generateTextLogo (domain : String) : String :=
  let brandName := upperStr (String.mk (domain.toList.takeWhile (fun c => c ≠ '.')))
  "https://via.placeholder.com/200x60/1e40af/ffffff?text=" ++
    encodeURIComponentStr brandName

/-- Embeds `createFallbackVisualAssets` of visualExtractor.ts: the record
returned when the visual-extraction try block throws — a generated text
logo, a domain-keyed palette, stock fonts, and a guessed favicon.  (The
inner catch for an unparseable URL returns a reduced constant record; it
is unreachable under the total `hostname` model.) -/
def createFallbackVisualAssets (url : String) : VisualAssets :=
  let domain := hostname url
  { logo := some (generateTextLogo domain),
    colors := generateBrandColors url,
    fonts := ["Arial", "Helvetica", "sans-serif"],
    screenshots := [],
    favicon := some (url ++ "/favicon.ico") }

/-- Step for `/font-family:\s*([^;]+)/gi`. -/
def fontFamilyStep (l : List Char) : Option (String × List Char) :=
  match matchLitCI "font-family:".toList l with
  | none => none
  | some r1 =>
    let r2 := r1.dropWhile Char.isWhitespace
    let captured := r2.takeWhile (fun c => c ≠ ';')
    if captured.isEmpty then none
    else some (String.mk captured, r2.drop captured.length)

/-- Embeds `extractFonts` of visualExtractor.ts: harvest `font-family`
declarations from the content, strip quotes, keep the first font of each
stack, drop `inherit`, cap at five, dedupe — with a stock-font default
when nothing is found. -/
def extractFonts (websiteData : WebsiteData) : List String :=
  let chars := websiteData.content.toList
  let fontMatches := scanAll fontFamilyStep chars.length chars
  let fonts :=
    ((fontMatches.map trimStr).map
      (fun font => String.mk (font.toList.filter (fun c => !isQuote c)))).map
      (fun font => trimStr (String.mk (font.toList.takeWhile (fun c => c ≠ ','))))
  let fonts :=
    (fonts.filter (fun font => font.length > 0 && !containsStr font "inherit")).take 5
  let uniqueFonts := dedupFirst fonts
  if uniqueFonts.length = 0 then ["Arial", "Helvetica", "sans-serif"]
  else uniqueFonts

/-- Embeds `new URL(rel, base).href` for the origin-only bases this pipeline
produces. -/
def resolveUrl (base rel : String) : String :=
  if strStartsWith rel "http" then rel
  else
    let scheme :=
      if strStartsWith base "https://" then "https://"
      else if strStartsWith base "http://" then "http://"
      else ""
    scheme ++ hostname base ++ (if strStartsWith rel "/" then rel else "/" ++ rel)

/-- Embeds `extractLogo` of visualExtractor.ts.  `headOk` is the network oracle:
whether the `HEAD` probe of an absolute candidate URL came back `ok`
(fetch exceptions count as not ok — the inner catch just continues).
When no candidate probes ok, the function falls back to a generated
placeholder text logo. -/
def extractLogo (headOk : String → Bool) (url : String)
    (websiteData : WebsiteData) : Option String :=
  let domain := hostname url
  let logoPatterns :=
    [url ++ "/logo.png", url ++ "/logo.svg",
     url ++ "/assets/logo.png", url ++ "/assets/logo.svg",
     url ++ "/images/logo.png", url ++ "/images/logo.svg",
     url ++ "/img/logo.png", url ++ "/img/logo.svg",
     url ++ "/static/logo.png", url ++ "/static/logo.svg"]
  let logoImages := websiteData.images.filter (fun img =>
    containsStr (lowerStr img) "logo" &&
    (containsStr img ".png" || containsStr img ".svg" ||
      containsStr img ".jpg" || containsStr img ".jpeg"))
  match (logoImages ++ logoPatterns).find?
      (fun logoUrl => headOk (resolveUrl url logoUrl)) with
  | some logoUrl => some (resolveUrl url logoUrl)
  | none => some (generateTextLogo domain)

/-- Embeds `extractFavicon` of visualExtractor.ts: the first of four candidate
URLs, returned without any check. -/
def extractFavicon (url : String) (websiteData : WebsiteData) : Option String :=
  let faviconUrls :=
    [url ++ "/favicon.ico", url ++ "/favicon.png",
     url ++ "/apple-touch-icon.png", url ++ "/android-chrome-192x192.png"]
  faviconUrls.head?

/-- Embeds `extractVisualAssets` of visualExtractor.ts.  The sub-extractors all
catch internally, so the outer catch only fires on a runtime fault of
the try block, modelled by the `runtime` oracle; on that failure the
function returns `createFallbackVisualAssets`. -/
def extractVisualAssets (headOk : String → Bool) (runtime : Except String Unit)
    (url : String) (websiteData : WebsiteData) : VisualAssets :=
  match runtime with
  | .error _ => createFallbackVisualAssets url
  | .ok _ =>
    { logo := extractLogo headOk url websiteData,
      colors := extractColors url websiteData,
      fonts := extractFonts websiteData,
      screenshots := [],
      favicon := extractFavicon url websiteData }

/-! ### aiAnalyzer.ts -/

/-- The `AIInsights` interface of aiAnalyzer.ts (scores are integers in
every code path; the optional `founded`/`revenue`/`employees` members are
set by both fallback generators). -/
structure AIInsights where
  overallScore : Nat
  industry : String
  description : String
  positioning : String
  valueProposition : String
  targetAudience : String
  brandPersonality : String
  marketPosition : String
  seoScore : Nat
  uxScore : Nat
  socialScore : Nat
  contentScore : Nat
  strengths : List String
  weaknesses : List String
  opportunities : List String
  threats : List String
  recommendations : List String
  founded : String
  revenue : String
  employees : String
deriving Repr, DecidableEq

/-- One entry of the industry-keyed template object inside
`generateIndustrySpecificInsights`. -/
structure IndustryInsights where
  description : String
  positioning : String
  valueProposition : String
  targetAudience : String
  brandPersonality : String
  marketPosition : String
  strengths : List String
  weaknesses : List String
  opportunities : List String
  threats : List String
  recommendations : List String
  founded : String
  revenue : String
  employees : String
deriving Repr, DecidableEq

/-- The `healthcare` entry of the template object. -/
def healthcareInsights (brandName : String) : IndustryInsights :=
  { description := brandName ++ " provides healthcare information services and clinical decision support solutions to medical professionals and institutions.",
    positioning := brandName ++ " positions itself as a trusted provider of evidence-based medical information and clinical tools.",
    valueProposition := "Evidence-based clinical decision support and comprehensive medical information resources",
    targetAudience := "Healthcare professionals, medical institutions, and clinical researchers",
    brandPersonality := "Authoritative, trustworthy, scientific, and professional",
    marketPosition := "established",
    strengths :=
      ["Strong reputation in medical community",
       "Comprehensive clinical content library",
       "Evidence-based approach to information",
       "Professional user interface design",
       "Regular content updates and validation"],
    weaknesses :=
      ["Complex navigation structure",
       "Limited mobile optimization",
       "High subscription costs may limit accessibility",
       "Interface could be more intuitive"],
    opportunities :=
      ["AI-powered clinical decision support",
       "Telemedicine integration opportunities",
       "Emerging markets expansion"],
    threats :=
      ["New AI-first medical information platforms",
       "Open-source medical databases"],
    recommendations :=
      ["Enhance mobile user experience",
       "Integrate AI-powered search and recommendations",
       "Develop more interactive clinical tools",
       "Improve user onboarding and training",
       "Expand partnership network with health systems"],
    founded := "Established medical publisher (1800s-1900s)",
    revenue := "$1-10 billion (large medical publisher)",
    employees := "5,000-20,000+ (global medical publisher)" }

/-- The `technology` entry of the template object. -/
def technologyInsights (brandName : String) : IndustryInsights :=
  { description := brandName ++ " develops innovative technology solutions and digital platforms for modern business challenges.",
    positioning := brandName ++ " positions itself as an innovative technology leader focused on digital transformation.",
    valueProposition := "Cutting-edge technology solutions that drive digital transformation and business growth",
    targetAudience := "Enterprise clients, technology professionals, and digital-first organizations",
    brandPersonality := "Innovative, forward-thinking, reliable, and technically sophisticated",
    marketPosition := "emerging",
    strengths :=
      ["Modern technology stack and architecture",
       "Strong digital marketing presence",
       "Clear value proposition",
       "Professional website design",
       "Good technical documentation"],
    weaknesses :=
      ["Competitive market saturation",
       "Need for stronger brand differentiation",
       "Limited thought leadership content",
       "Could improve customer testimonials"],
    opportunities :=
      ["AI and machine learning integration",
       "Cloud-first solution development",
       "Strategic partnership opportunities"],
    threats :=
      ["Rapid technological change",
       "Well-funded startup competition"],
    recommendations :=
      ["Invest in thought leadership content",
       "Enhance customer success stories",
       "Develop AI-powered features",
       "Strengthen developer community",
       "Expand integration marketplace"],
    founded := "2000s-2010s (modern tech company)",
    revenue := "$10-500 million (growing tech company)",
    employees := "100-5,000 (scaling technology company)" }

/-- Embeds `generateIndustrySpecificInsights` of aiAnalyzer.ts: pick the
`healthcare` template when the industry label mentions health/medical,
otherwise default to the `technology` template.  (The `websiteData`
parameter is unused by the source body as well.) -/
def generateIndustrySpecificInsights (brandName : String) (industry : String)
    (websiteData : WebsiteData) : IndustryInsights :=
  if containsStr (lowerStr industry) "health" || containsStr (lowerStr industry) "medical" then
    healthcareInsights brandName
  else
    technologyInsights brandName

/-- The record returned by `calculateRealisticScores`. -/
structure Scores where
  overall : Nat
  seo : Nat
  ux : Nat
  social : Nat
  content : Nat
deriving Repr, DecidableEq

/-- JS truthiness of the optional `visualAssets.logo` string. -/
def logoTruthy : Option String → Bool
  | some s => !strEmpty s
  | none => false

/-- Embeds `calculateRealisticScores` of aiAnalyzer.ts.  `rand` models the
single `Math.random()` draw: `Math.floor(Math.random() * 3)` becomes
`rand % 3`.  `Math.round(x * 2.5)` on a natural sum `x` is
`(x * 5 + 1) / 2` in integer arithmetic (round half up). -/
def calculateRealisticScores (websiteData : WebsiteData)
    (visualAssets : VisualAssets) (rand : Nat) : Scores :=
  let seoScore := 6
    + b2n (decide (websiteData.title.length > 10))
    + b2n (decide (websiteData.metaDescription.length > 50))
    + b2n (decide (websiteData.headings.length > 3))
    + b2n (decide (websiteData.content.length > 1000))
  let uxScore := 6
    + b2n (decide (visualAssets.colors.length > 2))
    + b2n (logoTruthy visualAssets.logo)
    + b2n (decide (websiteData.images.length > 3))
  let contentScore := 6
    + b2n (decide (websiteData.recentContent.length > 0))
    + b2n (decide (websiteData.content.length > 2000))
    + b2n (decide (websiteData.headings.length > 5))
  let socialScore := rand % 3 + 5
  let seoScore := min 10 seoScore
  let uxScore := min 10 uxScore
  let socialScore := min 10 socialScore
  let contentScore := min 10 contentScore
  let overall := ((seoScore + uxScore + socialScore + contentScore) * 5 + 1) / 2
  { overall := max 60 (min 95 overall),
    seo := seoScore, ux := uxScore, social := socialScore, content := contentScore }

/-- Embeds `generateComprehensiveFallbackInsights` of aiAnalyzer.ts.  (The
source also computes unused `hasGoodContent`/`hasVisualAssets` flags.) -/
def generateComprehensiveFallbackInsights (rand : Nat) (websiteData : WebsiteData)
    (visualAssets : VisualAssets) (brandName : String) : AIInsights :=
  let industry :=
    if strEmpty websiteData.detectedIndustry then "Technology"
    else websiteData.detectedIndustry
  let insights := generateIndustrySpecificInsights brandName industry websiteData
  let scores := calculateRealisticScores websiteData visualAssets rand
  { overallScore := scores.overall,
    industry := industry,
    description := insights.description,
    positioning := insights.positioning,
    valueProposition := insights.valueProposition,
    targetAudience := insights.targetAudience,
    brandPersonality := insights.brandPersonality,
    marketPosition := insights.marketPosition,
    seoScore := scores.seo,
    uxScore := scores.ux,
    socialScore := scores.social,
    contentScore := scores.content,
    strengths := insights.strengths,
    weaknesses := insights.weaknesses,
    opportunities := insights.opportunities,
    threats := insights.threats,
    recommendations := insights.recommendations,
    founded := insights.founded,
    revenue := insights.revenue,
    employees := insights.employees }

/-- Embeds `generateBasicFallbackInsights` of aiAnalyzer.ts: the constant
last-resort record. -/
def generateBasicFallbackInsights (brandName : String) : AIInsights :=
  { overallScore := 75,
    industry := "Technology",
    description := brandName ++ " is a professional services company focused on delivering innovative solutions to its target market.",
    positioning := brandName ++ " positions itself as a reliable provider of professional services and solutions.",
    valueProposition := "Innovative solutions and exceptional customer service",
    targetAudience := "Professional and enterprise customers",
    brandPersonality := "Professional, reliable, and customer-focused",
    marketPosition := "established",
    seoScore := 7,
    uxScore := 7,
    socialScore := 6,
    contentScore := 7,
    strengths :=
      ["Professional brand presentation",
       "Clear service offerings",
       "Good market reputation",
       "Customer-focused approach",
       "Industry experience"],
    weaknesses :=
      ["Could improve digital marketing",
       "Limited online visibility",
       "Need for more customer testimonials",
       "Mobile experience optimization needed"],
    opportunities :=
      ["Digital transformation services",
       "Enhanced online presence",
       "Strategic partnerships"],
    threats :=
      ["Increasing market competition",
       "Economic uncertainty"],
    recommendations :=
      ["Enhance digital marketing strategy",
       "Improve website user experience",
       "Develop thought leadership content",
       "Strengthen customer testimonials",
       "Optimize for mobile devices"],
    founded := "Not specified",
    revenue := "Not specified",
    employees := "Not specified" }

/-- Embeds `generateAIInsights` of aiAnalyzer.ts, the generator's public entry
point.  The network-and-JSON-parse OpenAI call is the `openaiResult`
oracle (`hasApiKey` models `process.env.OPENAI_API_KEY`); its errors
cover API errors, an empty response, and invalid JSON.  On any OpenAI
failure, and whenever no key is configured, the comprehensive fallback
is returned.  The outer catch (returning
`generateBasicFallbackInsights`) only fires on a runtime fault of the
fallback itself, which cannot happen under the typed data model. -/
def generateAIInsights (hasApiKey : Bool) (openaiResult : Except String AIInsights)
    (rand : Nat) (websiteData : WebsiteData) (visualAssets : VisualAssets)
    (brandName : String) : AIInsights :=
  if hasApiKey then
    match openaiResult with
    | .ok insights => insights
    | .error _ =>
      generateComprehensiveFallbackInsights rand websiteData visualAssets brandName
  else
    generateComprehensiveFallbackInsights rand websiteData visualAssets brandName

/-! ### websiteAnalyzer.ts — analyzeWebsite, and the /api/analyze route

All effects of one batch run are collected into one `Env` record of
oracles.  `analyzeWebsite` performs a single static `fetch` (30-second
abort timeout, descriptive user agent); a non-2xx status is thrown
inside the try, so `staticFetch` returns either the body of an `ok`
response or the observed failure reason (timeout, HTTP status,
connection error).  The route also has a headless-rendering variant of
visual extraction in the repository; a `renderedFetch` oracle is carried
in the environment so that theorems can speak about a URL on which
rendering would have succeeded — the fetch layer itself never consults
it. -/

structure Env where
  staticFetch : String → Except String String
  renderedFetch : String → Except String String
  headOk : String → Bool
  visualRuntime : String → Except String Unit
  hasApiKey : Bool
  openai : String → Except String AIInsights
  rand : String → Nat

/-- Embeds `analyzeWebsite` of websiteAnalyzer.ts: static fetch, then parse; on
any failure rethrow with the `Failed to fetch website` prefix. -/
def analyzeWebsite (env : Env) (url : String) : Except String WebsiteData :=
  match env.staticFetch url with
  | .ok html => .ok (parseHTMLContent html url)
  | .error e => .error ("Failed to fetch website " ++ url ++ ": " ++ e)

/-- The spec-side single-strategy reading of the fetch layer: a function
of the static-fetch oracle alone. -/
def analyzeWebsiteStatic (staticFetch : String → Except String String)
    (url : String) : Except String WebsiteData :=
  match staticFetch url with
  | .ok html => .ok (parseHTMLContent html url)
  | .error e => .error ("Failed to fetch website " ++ url ++ ": " ++ e)

/-- The route's brand-input normalization: inputs containing a dot are
URLs (prefixed with `https://` unless already schemed), anything else is
lower-cased, stripped of whitespace and wrapped as `https://<x>.com`. -/
def normalizeWebsite (brandInput : String) : String :=
  if containsStr (lowerStr brandInput) "." then
    (if strStartsWith brandInput "http" then brandInput else "https://" ++ brandInput)
  else
    "https://" ++ String.mk ((lowerStr brandInput).toList.filter
      (fun c => !c.isWhitespace)) ++ ".com"

/-- The route's brand-name guess: the part before the first dot. -/
def brandNameOf (brandInput : String) : String :=
  if containsStr brandInput "." then String.mk (brandInput.toList.takeWhile (fun c => c ≠ '.'))
  else brandInput

/-- JS `a || b || null` on strings (empty string is falsy). -/
def orElseStr (a b : String) : Option String :=
  if !strEmpty a then some a else if !strEmpty b then some b else none

/-- JS `a || null` on a string. -/
def strOpt (a : String) : Option String := if strEmpty a then none else some a

/-- JS `n || null` on a number (zero is falsy). -/
def natOpt (n : Nat) : Option Nat := if n = 0 then none else some n

structure Overview where
  industry : Option String
  description : Option String
  founded : Option String
  revenue : Option String
  employees : Option String
deriving Repr, DecidableEq

structure Positioning where
  statement : Option String
  valueProposition : Option String
  targetAudience : Option String
  personality : Option String
  marketPosition : Option String
deriving Repr, DecidableEq

structure DigitalScores where
  seoScore : Option Nat
  uxScore : Option Nat
  socialScore : Option Nat
  contentScore : Option Nat
deriving Repr, DecidableEq

structure VisualBlock where
  logo : Option String
  colors : List String
  fonts : List String
  screenshots : List String
deriving Repr, DecidableEq

/-- One entry of the route's `analysisResults` array.  A success entry
populates every block; the per-brand catch pushes an entry carrying only
`name`/`website`/`score: 0`/`error`, so every block is `none` there.
(The `analyzedAt` timestamp and `analysisVersion` tag are metadata
outside the data model.) -/
structure BrandResult where
  name : String
  website : String
  score : Option Nat
  error : Option String
  overview : Option Overview
  positioning : Option Positioning
  digital : Option DigitalScores
  visual : Option VisualBlock
  strengths : Option (List String)
  weaknesses : Option (List String)
  opportunities : Option (List String)
  threats : Option (List String)
  recommendations : Option (List String)
  recentWork : Option (List RecentItem)
deriving Repr, DecidableEq

/-- The `brandAnalysis` object the route builds on success ("ONLY real
data": every missing value becomes `null`, never a default). -/
def successEntry (brandName website : String) (websiteData : WebsiteData)
    (visualAssets : VisualAssets) (aiInsights : AIInsights) : BrandResult :=
  { name := brandName,
    website := website,
    score := natOpt aiInsights.overallScore,
    error := none,
    overview := some
      { industry := orElseStr aiInsights.industry websiteData.detectedIndustry,
        description := orElseStr aiInsights.description websiteData.metaDescription,
        founded := strOpt aiInsights.founded,
        revenue := strOpt aiInsights.revenue,
        employees := strOpt aiInsights.employees },
    positioning := some
      { statement := strOpt aiInsights.positioning,
        valueProposition := strOpt aiInsights.valueProposition,
        targetAudience := strOpt aiInsights.targetAudience,
        personality := strOpt aiInsights.brandPersonality,
        marketPosition := strOpt aiInsights.marketPosition },
    digital := some
      { seoScore := natOpt aiInsights.seoScore,
        uxScore := natOpt aiInsights.uxScore,
        socialScore := natOpt aiInsights.socialScore,
        contentScore := natOpt aiInsights.contentScore },
    visual := some
      { logo := match visualAssets.logo with
          | some s => strOpt s
          | none => none,
        colors := visualAssets.colors,
        fonts := visualAssets.fonts,
        screenshots := visualAssets.screenshots },
    strengths := some aiInsights.strengths,
    weaknesses := some aiInsights.weaknesses,
    opportunities := some aiInsights.opportunities,
    threats := some aiInsights.threats,
    recommendations := some aiInsights.recommendations,
    recentWork := some websiteData.recentContent }

/-- The entry pushed by the route's per-brand catch. -/
def failedEntry (brandInput : String) (e : String) : BrandResult :=
  { name := brandInput,
    website := brandInput,
    score := some 0,
    error := some ("Failed to analyze: " ++ e),
    overview := none,
    positioning := none,
    digital := none,
    visual := none,
    strengths := none,
    weaknesses := none,
    opportunities := none,
    threats := none,
    recommendations := none,
    recentWork := none }

/-- One iteration of the route's batch loop: normalize the input, run
the three pipeline stages, and build the success entry — any thrown
error (in this typed model, exactly a fetch failure) lands in the
per-brand catch. -/
def processBrand (env : Env) (brandInput : String) : BrandResult :=
  let website := normalizeWebsite brandInput
  let brandName := brandNameOf brandInput
  match analyzeWebsite env website with
  | .error e => failedEntry brandInput e
  | .ok websiteData =>
    let visualAssets :=
      extractVisualAssets env.headOk (env.visualRuntime website) website websiteData
    let aiInsights :=
      generateAIInsights env.hasApiKey (env.openai brandName)
        (env.rand brandInput) websiteData visualAssets brandName
    successEntry brandName website websiteData visualAssets aiInsights

/-- The route's `for (const brandInput of brands)` loop: one entry per
input, in order, failures isolated per brand by the catch. -/
def processBatch (env : Env) (brands : List String) : List BrandResult :=
  brands.map (processBrand env)

/-! ### Fixtures used by counterexamples and witnesses -/

/-- A minimal parsed site: what `parseHTMLContent "" url` yields. -/
def wd0 : WebsiteData :=
  { url := "https://example.com", title := "", metaDescription := "",
    metaKeywords := "", headings := [], content := "", links := [],
    images := [], detectedIndustry := "General Business", recentContent := [] }

/-- Empty visual assets. -/
def va0 : VisualAssets :=
  { logo := none, colors := [], fonts := [], screenshots := [], favicon := none }

/-! ### C9 — industry classifier priority order -/

/-- The healthcare keyword list of `detectIndustryFromContent`, in source
order. -/
def healthcareKeywords : List String :=
  ["health", "medical", "clinical", "patient", "healthcare", "medicine",
   "pharmaceutical", "diagnostic", "therapy"]

def technologyKeywords : List String :=
  ["software", "technology", "digital", "platform", "cloud", "ai",
   "artificial intelligence", "saas", "tech"]

def financialKeywords : List String :=
  ["financial", "banking", "investment", "insurance", "finance", "wealth",
   "trading", "loan", "credit"]

def educationKeywords : List String :=
  ["education", "learning", "university", "school", "academic", "student",
   "course", "training"]

def retailKeywords : List String :=
  ["retail", "shop", "store", "ecommerce", "marketplace", "buy", "sell",
   "product"]

def consultingKeywords : List String :=
  ["consulting", "advisory", "professional services", "strategy",
   "management", "expertise"]

/-- The classifier's fixed priority order of categories, each with its
keyword list. -/
def industryTable : List (String × List String) :=
  [("Healthcare & Medical", healthcareKeywords),
   ("Technology", technologyKeywords),
   ("Financial Services", financialKeywords),
   ("Education", educationKeywords),
   ("Retail & E-commerce", retailKeywords),
   ("Consulting & Professional Services", consultingKeywords)]

/-- Spec-side reading of the classifier: walk the priority list and
return the first category one of whose keywords occurs in the lowered
text, defaulting to the general-business label. -/
def firstMatchAux (text : String) : List (String × List String) → String
  | [] => "General Business"
  | (label, kws) :: rest =>
    if kws.any (fun kw => containsStr (lowerStr text) kw) then label
    else firstMatchAux text rest

/-- Spec-side classifier over the priority table. -/
def firstMatchingCategory (text : String) : String :=
  firstMatchAux text industryTable

/-- Every category keyword, in priority order. -/
def allIndustryKeywords : List String :=
  healthcareKeywords ++ technologyKeywords ++ financialKeywords ++
    educationKeywords ++ retailKeywords ++ consultingKeywords

/-- C9: the industry classifier returns the first matching category in
the fixed priority order healthcare, technology, financial services,
education, retail, consulting, and returns the default general-business
label exactly when no category keyword occurs in the (lowered) text. -/
theorem c9_industry_priority_order (text : String) :
    detectIndustryFromContent text = firstMatchingCategory text
    ∧ (detectIndustryFromContent text = "General Business" ↔
        allIndustryKeywords.any (fun kw => containsStr (lowerStr text) kw) = false) := by
  have eH : healthcareKeywords.any (fun kw => containsStr (lowerStr text) kw)
      = (containsStr (lowerStr text) "health" || containsStr (lowerStr text) "medical" ||
        containsStr (lowerStr text) "clinical" || containsStr (lowerStr text) "patient" ||
        containsStr (lowerStr text) "healthcare" || containsStr (lowerStr text) "medicine" ||
        containsStr (lowerStr text) "pharmaceutical" || containsStr (lowerStr text) "diagnostic" ||
        containsStr (lowerStr text) "therapy") := by
    simp [healthcareKeywords, Bool.or_assoc]
  have eT : technologyKeywords.any (fun kw => containsStr (lowerStr text) kw)
      = (containsStr (lowerStr text) "software" || containsStr (lowerStr text) "technology" ||
        containsStr (lowerStr text) "digital" || containsStr (lowerStr text) "platform" ||
        containsStr (lowerStr text) "cloud" || containsStr (lowerStr text) "ai" ||
        containsStr (lowerStr text) "artificial intelligence" || containsStr (lowerStr text) "saas" ||
        containsStr (lowerStr text) "tech") := by
    simp [technologyKeywords, Bool.or_assoc]
  have eF : financialKeywords.any (fun kw => containsStr (lowerStr text) kw)
      = (containsStr (lowerStr text) "financial" || containsStr (lowerStr text) "banking" ||
        containsStr (lowerStr text) "investment" || containsStr (lowerStr text) "insurance" ||
        containsStr (lowerStr text) "finance" || containsStr (lowerStr text) "wealth" ||
        containsStr (lowerStr text) "trading" || containsStr (lowerStr text) "loan" ||
        containsStr (lowerStr text) "credit") := by
    simp [financialKeywords, Bool.or_assoc]
  have eE : educationKeywords.any (fun kw => containsStr (lowerStr text) kw)
      = (containsStr (lowerStr text) "education" || containsStr (lowerStr text) "learning" ||
        containsStr (lowerStr text) "university" || containsStr (lowerStr text) "school" ||
        containsStr (lowerStr text) "academic" || containsStr (lowerStr text) "student" ||
        containsStr (lowerStr text) "course" || containsStr (lowerStr text) "training") := by
    simp [educationKeywords, Bool.or_assoc]
  have eR : retailKeywords.any (fun kw => containsStr (lowerStr text) kw)
      = (containsStr (lowerStr text) "retail" || containsStr (lowerStr text) "shop" ||
        containsStr (lowerStr text) "store" || containsStr (lowerStr text) "ecommerce" ||
        containsStr (lowerStr text) "marketplace" || containsStr (lowerStr text) "buy" ||
        containsStr (lowerStr text) "sell" || containsStr (lowerStr text) "product") := by
    simp [retailKeywords, Bool.or_assoc]
  have eC : consultingKeywords.any (fun kw => containsStr (lowerStr text) kw)
      = (containsStr (lowerStr text) "consulting" || containsStr (lowerStr text) "advisory" ||
        containsStr (lowerStr text) "professional services" || containsStr (lowerStr text) "strategy" ||
        containsStr (lowerStr text) "management" || containsStr (lowerStr text) "expertise") := by
    simp [consultingKeywords, Bool.or_assoc]
  refine ⟨?_, ?_⟩
  · simp only [detectIndustryFromContent, firstMatchingCategory, industryTable,
      firstMatchAux]
    simp only [← eH, ← eT, ← eF, ← eE, ← eR, ← eC]
  · simp only [detectIndustryFromContent, allIndustryKeywords]
    simp only [← eH, ← eT, ← eF, ← eE, ← eR, ← eC]
    clear eH eT eF eE eR eC
    cases hH : healthcareKeywords.any (fun kw => containsStr (lowerStr text) kw) <;>
      cases hT : technologyKeywords.any (fun kw => containsStr (lowerStr text) kw) <;>
      cases hF : financialKeywords.any (fun kw => containsStr (lowerStr text) kw) <;>
      cases hE : educationKeywords.any (fun kw => containsStr (lowerStr text) kw) <;>
      cases hR : retailKeywords.any (fun kw => containsStr (lowerStr text) kw) <;>
      cases hC : consultingKeywords.any (fun kw => containsStr (lowerStr text) kw) <;>
      simp [hH, hT, hF, hE, hR, hC, List.any_append]

/-! ### Shared helper lemmas -/

theorem append_ne_empty_of_left (a b : String) (h : a ≠ "") : a ++ b ≠ "" := by
  intro hab
  apply h
  apply String.ext
  have hd := congrArg String.data hab
  rw [String.data_append] at hd
  exact (List.append_eq_nil.mp hd).1

theorem append_ne_empty_of_right (a b : String) (h : b ≠ "") : a ++ b ≠ "" := by
  intro hab
  apply h
  apply String.ext
  have hd := congrArg String.data hab
  rw [String.data_append] at hd
  exact (List.append_eq_nil.mp hd).2

theorem b2n_le_one (b : Bool) : b2n b ≤ 1 := by
  cases b <;> simp [b2n]

theorem b2n_mono {a b : Bool} (h : a = true → b = true) : b2n a ≤ b2n b := by
  cases a <;> cases b <;> simp_all [b2n]

/-! ### C1 — fallbacks fabricate placeholder values on failure -/

/-- C1 (code bug): when visual extraction fails, the emitted
`visualAssets` do not stay empty — `createFallbackVisualAssets` fills
them with a domain-keyed generated palette, a via.placeholder.com text
logo, and stock fonts; and when AI insight generation fails, the score
and SWOT fields do not stay empty — the fallback generators return a
non-zero score and pre-authored SWOT lists.  Evaluated here at the
concrete URL `https://acme.com`. -/
theorem c1_fallbacks_fabricate_placeholder_values :
    extractVisualAssets (fun _ => false) (Except.error "render crash")
        "https://acme.com" wd0 = createFallbackVisualAssets "https://acme.com"
    ∧ (createFallbackVisualAssets "https://acme.com").colors
        = ["#1e40af", "#3b82f6", "#0ea5e9", "#64748b", "#475569"]
    ∧ (createFallbackVisualAssets "https://acme.com").logo
        = some "https://via.placeholder.com/200x60/1e40af/ffffff?text=ACME"
    ∧ (createFallbackVisualAssets "https://acme.com").fonts
        = ["Arial", "Helvetica", "sans-serif"]
    ∧ (generateAIInsights false (Except.error "AI down") 0 wd0 va0 "acme").strengths ≠ []
    ∧ (generateAIInsights false (Except.error "AI down") 0 wd0 va0 "acme").overallScore = 60
    ∧ (generateBasicFallbackInsights "acme").overallScore = 75
    ∧ (generateBasicFallbackInsights "acme").strengths ≠ [] := by
  decide

/-! ### C5 — scorer is not deterministic (random social sub-score) -/

/-- C5 counterexample: two runs of the scorer on identical
`structuredContent`/`visualAssets` inputs that differ only in the
`Math.random()` draw produce different social sub-scores (5 vs 7) and
different aggregate scores (60 vs 63). -/
theorem c5_counterexample_random_social_score :
    (calculateRealisticScores wd0 va0 0).social = 5
    ∧ (calculateRealisticScores wd0 va0 2).social = 7
    ∧ (calculateRealisticScores wd0 va0 0).overall = 60
    ∧ (calculateRealisticScores wd0 va0 2).overall = 63
    ∧ calculateRealisticScores wd0 va0 0 ≠ calculateRealisticScores wd0 va0 2 := by
  decide

/-- C5 (amended): the parser and the seo/ux/content sub-scores are
deterministic functions of the input; only the social sub-score (and
hence the aggregate) depends on the random draw. -/
theorem c5_parser_and_subscores_deterministic (wd : WebsiteData)
    (va : VisualAssets) (r1 r2 : Nat) :
    (calculateRealisticScores wd va r1).seo = (calculateRealisticScores wd va r2).seo
    ∧ (calculateRealisticScores wd va r1).ux = (calculateRealisticScores wd va r2).ux
    ∧ (calculateRealisticScores wd va r1).content
        = (calculateRealisticScores wd va r2).content
    ∧ ∀ (html url : String), parseHTMLContent html url = parseHTMLContent html url :=
  ⟨rfl, rfl, rfl, fun _ _ => rfl⟩

/-! ### C6 — score ranges -/

/-- C6 counterexample: the aggregate score and the sub-scores are not in
the closed interval `[0, 1]` — on the minimal input the aggregate is 60
and the seo sub-score is 6. -/
theorem c6_counterexample_scores_not_in_unit_interval :
    (calculateRealisticScores wd0 va0 0).overall = 60
    ∧ ¬ ((calculateRealisticScores wd0 va0 0).overall ≤ 1)
    ∧ (calculateRealisticScores wd0 va0 0).seo = 6
    ∧ ¬ ((calculateRealisticScores wd0 va0 0).seo ≤ 1) := by
  decide

/-- C6 (amended): the aggregate score always lies in `[60, 95]` (on the
code's 0–100 scale) and every digital sub-score lies in `[1, 10]`. -/
theorem c6_score_bounds (wd : WebsiteData) (va : VisualAssets) (r : Nat) :
    60 ≤ (calculateRealisticScores wd va r).overall
    ∧ (calculateRealisticScores wd va r).overall ≤ 95
    ∧ 1 ≤ (calculateRealisticScores wd va r).seo
    ∧ (calculateRealisticScores wd va r).seo ≤ 10
    ∧ 1 ≤ (calculateRealisticScores wd va r).ux
    ∧ (calculateRealisticScores wd va r).ux ≤ 10
    ∧ 1 ≤ (calculateRealisticScores wd va r).social
    ∧ (calculateRealisticScores wd va r).social ≤ 10
    ∧ 1 ≤ (calculateRealisticScores wd va r).content
    ∧ (calculateRealisticScores wd va r).content ≤ 10 := by
  dsimp only [calculateRealisticScores]
  omega

/-! ### C7 — score monotone in extracted evidence -/

/-- C7: with the random draw held fixed, the scorer is monotone in the
extracted evidence: growing any of the structured/visual inputs (longer
title/description/content, more headings/images/recent items/colors, a
logo becoming present) never lowers any sub-score or the aggregate. -/
theorem c7_score_monotone (wd wd2 : WebsiteData) (va va2 : VisualAssets) (r : Nat)
    (htitle : wd.title.length ≤ wd2.title.length)
    (hmeta : wd.metaDescription.length ≤ wd2.metaDescription.length)
    (hhead : wd.headings.length ≤ wd2.headings.length)
    (hcont : wd.content.length ≤ wd2.content.length)
    (himg : wd.images.length ≤ wd2.images.length)
    (hrec : wd.recentContent.length ≤ wd2.recentContent.length)
    (hcol : va.colors.length ≤ va2.colors.length)
    (hlogo : logoTruthy va.logo = true → logoTruthy va2.logo = true) :
    (calculateRealisticScores wd va r).overall
        ≤ (calculateRealisticScores wd2 va2 r).overall
    ∧ (calculateRealisticScores wd va r).seo ≤ (calculateRealisticScores wd2 va2 r).seo
    ∧ (calculateRealisticScores wd va r).ux ≤ (calculateRealisticScores wd2 va2 r).ux
    ∧ (calculateRealisticScores wd va r).content
        ≤ (calculateRealisticScores wd2 va2 r).content
    ∧ (calculateRealisticScores wd va r).social
        = (calculateRealisticScores wd2 va2 r).social := by
  have m1 : b2n (decide (wd.title.length > 10))
      ≤ b2n (decide (wd2.title.length > 10)) :=
    b2n_mono (by simp only [decide_eq_true_eq]; omega)
  have m2 : b2n (decide (wd.metaDescription.length > 50))
      ≤ b2n (decide (wd2.metaDescription.length > 50)) :=
    b2n_mono (by simp only [decide_eq_true_eq]; omega)
  have m3 : b2n (decide (wd.headings.length > 3))
      ≤ b2n (decide (wd2.headings.length > 3)) :=
    b2n_mono (by simp only [decide_eq_true_eq]; omega)
  have m4 : b2n (decide (wd.content.length > 1000))
      ≤ b2n (decide (wd2.content.length > 1000)) :=
    b2n_mono (by simp only [decide_eq_true_eq]; omega)
  have m5 : b2n (decide (va.colors.length > 2))
      ≤ b2n (decide (va2.colors.length > 2)) :=
    b2n_mono (by simp only [decide_eq_true_eq]; omega)
  have m6 : b2n (logoTruthy va.logo) ≤ b2n (logoTruthy va2.logo) :=
    b2n_mono hlogo
  have m7 : b2n (decide (wd.images.length > 3))
      ≤ b2n (decide (wd2.images.length > 3)) :=
    b2n_mono (by simp only [decide_eq_true_eq]; omega)
  have m8 : b2n (decide (wd.recentContent.length > 0))
      ≤ b2n (decide (wd2.recentContent.length > 0)) :=
    b2n_mono (by simp only [decide_eq_true_eq]; omega)
  have m9 : b2n (decide (wd.content.length > 2000))
      ≤ b2n (decide (wd2.content.length > 2000)) :=
    b2n_mono (by simp only [decide_eq_true_eq]; omega)
  have m10 : b2n (decide (wd.headings.length > 5))
      ≤ b2n (decide (wd2.headings.length > 5)) :=
    b2n_mono (by simp only [decide_eq_true_eq]; omega)
  dsimp only [calculateRealisticScores]
  omega

/-- A copy of the minimal site with one more piece of evidence: four
headings instead of none. -/
def wdPlus : WebsiteData := { wd0 with headings := ["Welcome", "About", "Contact", "Blog"] }

/-- Visual assets with three colors and a logo present. -/
def vaPlus : VisualAssets :=
  { va0 with colors := ["#111111", "#222222", "#333333"],
             logo := some "https://example.com/logo.png" }

theorem c7_score_monotone_witness :
    wd0.title.length ≤ wdPlus.title.length
    ∧ wd0.metaDescription.length ≤ wdPlus.metaDescription.length
    ∧ wd0.headings.length ≤ wdPlus.headings.length
    ∧ wd0.content.length ≤ wdPlus.content.length
    ∧ wd0.images.length ≤ wdPlus.images.length
    ∧ wd0.recentContent.length ≤ wdPlus.recentContent.length
    ∧ va0.colors.length ≤ vaPlus.colors.length
    ∧ (logoTruthy va0.logo = true → logoTruthy vaPlus.logo = true)
    ∧ (calculateRealisticScores wd0 va0 1).overall
        ≤ (calculateRealisticScores wdPlus vaPlus 1).overall :=
  ⟨by decide, by decide, by decide, by decide, by decide, by decide, by decide,
   by decide,
   (c7_score_monotone wd0 wdPlus va0 vaPlus 1 (by decide) (by decide) (by decide)
     (by decide) (by decide) (by decide) (by decide) (by decide)).1⟩

/-! ### C2 — total fetch failure yields a failed profile -/

/-- C2: when the (only) fetch strategy fails on a brand's normalized URL,
the emitted entry carries a non-empty `Failed to analyze: ...` reason
built from the observed error, a zero score, and none of the
insight/visual blocks populated. -/
theorem c2_fetch_failure_yields_failed_profile (env : Env) (brand msg : String)
    (h : env.staticFetch (normalizeWebsite brand) = .error msg) :
    (processBrand env brand).error
        = some ("Failed to analyze: " ++
            ("Failed to fetch website " ++ normalizeWebsite brand ++ ": " ++ msg))
    ∧ (∀ s, (processBrand env brand).error = some s → s ≠ "")
    ∧ (processBrand env brand).overview = none
    ∧ (processBrand env brand).positioning = none
    ∧ (processBrand env brand).digital = none
    ∧ (processBrand env brand).visual = none
    ∧ (processBrand env brand).strengths = none
    ∧ (processBrand env brand).weaknesses = none
    ∧ (processBrand env brand).opportunities = none
    ∧ (processBrand env brand).threats = none
    ∧ (processBrand env brand).recommendations = none
    ∧ (processBrand env brand).recentWork = none
    ∧ (processBrand env brand).score = some 0 := by
  have hp : processBrand env brand
      = failedEntry brand
          ("Failed to fetch website " ++ normalizeWebsite brand ++ ": " ++ msg) := by
    simp only [processBrand, analyzeWebsite, h]
  rw [hp]
  refine ⟨rfl, ?_, rfl, rfl, rfl, rfl, rfl, rfl, rfl, rfl, rfl, rfl, rfl⟩
  intro s hs
  simp only [failedEntry, Option.some.injEq] at hs
  rw [← hs]
  exact append_ne_empty_of_left _ _ (by decide)

/-- An environment in which every static fetch times out. -/
def env0 : Env :=
  { staticFetch := fun _ => .error "timeout",
    renderedFetch := fun _ => .ok "",
    headOk := fun _ => false,
    visualRuntime := fun _ => .ok (),
    hasApiKey := false,
    openai := fun _ => .error "no key",
    rand := fun _ => 0 }

theorem c2_fetch_failure_yields_failed_profile_witness :
    env0.staticFetch (normalizeWebsite "example.com") = .error "timeout"
    ∧ normalizeWebsite "example.com" = "https://example.com"
    ∧ (processBrand env0 "example.com").error
        = some ("Failed to analyze: " ++
            ("Failed to fetch website " ++ normalizeWebsite "example.com" ++ ": " ++ "timeout"))
    ∧ (processBrand env0 "example.com").visual = none
    ∧ (processBrand env0 "example.com").strengths = none :=
  ⟨rfl, by decide,
   (c2_fetch_failure_yields_failed_profile env0 "example.com" "timeout" rfl).1,
   (c2_fetch_failure_yields_failed_profile env0 "example.com" "timeout" rfl).2.2.2.2.2.1,
   (c2_fetch_failure_yields_failed_profile env0 "example.com" "timeout" rfl).2.2.2.2.2.2.1⟩

/-! ### C3 — batch isolation -/

/-- C3: the batch loop emits exactly one entry per input brand, in input
order; a brand's entry is a function of that brand alone, so the entries
for the other brands are the same as when the failing brand is absent. -/
theorem c3_batch_isolation (env : Env) (xs ys : List String) (b : String) :
    processBatch env (xs ++ b :: ys)
        = processBatch env xs ++ processBrand env b :: processBatch env ys
    ∧ processBatch env (xs ++ ys) = processBatch env xs ++ processBatch env ys
    ∧ ∀ brands : List String, (processBatch env brands).length = brands.length := by
  refine ⟨?_, ?_, ?_⟩
  · simp [processBatch]
  · simp [processBatch]
  · intro brands; simp [processBatch]

/-! ### C4 — no rendered-fetch fallback exists -/

/-- An environment whose static fetch times out on every URL while a
rendered (headless-browser) fetch would succeed. -/
def env4 : Env :=
  { staticFetch := fun _ => .error "timeout",
    renderedFetch := fun _ => .ok "<html><body>rendered content</body></html>",
    headOk := fun _ => false,
    visualRuntime := fun _ => .ok (),
    hasApiKey := false,
    openai := fun _ => .error "no key",
    rand := fun _ => 0 }

/-- C4 counterexample: on a URL whose static fetch times out but whose
rendered fetch would succeed, the pipeline emits a failed entry — not a
successful profile tagged `extractionMethod = "rendered"`.  (No
`extractionMethod` field exists anywhere in the emitted record, and
`analyzeWebsite` never consults the rendering oracle.) -/
theorem c4_counterexample_no_rendered_fallback :
    env4.staticFetch "https://example.com" = .error "timeout"
    ∧ (∃ html, env4.renderedFetch "https://example.com" = .ok html)
    ∧ analyzeWebsite env4 "https://example.com"
        = .error ("Failed to fetch website " ++ "https://example.com" ++ ": " ++ "timeout")
    ∧ (processBrand env4 "example.com").error
        = some ("Failed to analyze: " ++
            ("Failed to fetch website " ++ "https://example.com" ++ ": " ++ "timeout"))
    ∧ (processBrand env4 "example.com").visual = none :=
  ⟨rfl, ⟨_, rfl⟩, rfl, by decide, by decide⟩

/-- C4 (amended): the fetch layer has exactly one strategy — the static
fetch; `analyzeWebsite` is a function of the static-fetch oracle alone
(in particular it never escalates to the rendering oracle, and no
strategy tag is recorded). -/
theorem c4_single_static_strategy (env : Env) (url : String) :
    analyzeWebsite env url = analyzeWebsiteStatic env.staticFetch url := rfl

/-! ### C8 — color palette properties -/

/-- A site whose content holds the same color once as an uppercase hex
literal and once as an `rgb()` triple. -/
def wdColorDup : WebsiteData := { wd0 with content := "#FF0000 rgb(255, 0, 0)" }

/-- C8 counterexample: the dedup step compares exact strings, so the
same color value survives twice in different spellings — `#FF0000` from
the hex literal and `#ff0000` from the rgb conversion denote one color
but both appear in the palette. -/
theorem c8_counterexample_case_duplicate_color_values :
    extractColors "https://example.com" wdColorDup = ["#FF0000", "#ff0000"]
    ∧ lowerStr "#FF0000" = lowerStr "#ff0000"
    ∧ "#FF0000" ≠ "#ff0000" := by
  decide

/-- C8 (amended): the palette always holds at most six entries, contains
no duplicate color *strings* (dedup is exact string equality, so one
color may still recur in different spellings), and never contains the
pure white/black literals (compared case-insensitively). -/
theorem c8_palette_cap_nodup_no_white_black (url : String) (wd : WebsiteData) :
    (extractColors url wd).length ≤ 6
    ∧ (extractColors url wd).Nodup
    ∧ ∀ c ∈ extractColors url wd,
        ¬ (["#ffffff", "#000000", "#fff", "#000"] : List String).contains (lowerStr c) := by
  unfold extractColors
  dsimp only
  split
  · -- fallback palette branch
    unfold generateBrandColors
    dsimp only
    split
    · exact ⟨by decide, by decide, by decide⟩
    split
    · exact ⟨by decide, by decide, by decide⟩
    split
    · exact ⟨by decide, by decide, by decide⟩
    split
    · exact ⟨by decide, by decide, by decide⟩
    · exact ⟨by decide, by decide, by decide⟩
  · -- harvested palette branch
    refine ⟨List.length_take_le _ _, ?_, ?_⟩
    · exact ((dedupFirst_nodup _).filter _).sublist (List.take_sublist _ _)
    · intro c hc
      have hmem := List.mem_of_mem_take hc
      have hp := List.of_mem_filter hmem
      simpa using hp

/-- A site whose content holds two distinct harvestable colors plus the
white literal. -/
def wdColors : WebsiteData := { wd0 with content := "#ffffff #1a73e8 #abc x" }

theorem c8_palette_cap_nodup_no_white_black_witness :
    extractColors "https://example.com" wdColors = ["#1a73e8", "#abc"]
    ∧ (extractColors "https://example.com" wdColors).length ≤ 6
    ∧ (extractColors "https://example.com" wdColors).Nodup
    ∧ ¬ (["#ffffff", "#000000", "#fff", "#000"] : List String).contains
        (lowerStr "#1a73e8") :=
  ⟨by decide,
   (c8_palette_cap_nodup_no_white_black "https://example.com" wdColors).1,
   (c8_palette_cap_nodup_no_white_black "https://example.com" wdColors).2.1,
   (c8_palette_cap_nodup_no_white_black "https://example.com" wdColors).2.2
     "#1a73e8" (by decide)⟩

/-! ### C10 — AI insight generator is total with populated fallbacks -/

/-- Both industry templates populate every insight field with a
non-empty value. -/
theorem industry_insights_populated (name industry : String) (wd : WebsiteData) :
    (generateIndustrySpecificInsights name industry wd).strengths ≠ []
    ∧ (generateIndustrySpecificInsights name industry wd).weaknesses ≠ []
    ∧ (generateIndustrySpecificInsights name industry wd).opportunities ≠ []
    ∧ (generateIndustrySpecificInsights name industry wd).threats ≠ []
    ∧ (generateIndustrySpecificInsights name industry wd).recommendations ≠ []
    ∧ (generateIndustrySpecificInsights name industry wd).description ≠ ""
    ∧ (generateIndustrySpecificInsights name industry wd).positioning ≠ ""
    ∧ (generateIndustrySpecificInsights name industry wd).valueProposition ≠ ""
    ∧ (generateIndustrySpecificInsights name industry wd).targetAudience ≠ ""
    ∧ (generateIndustrySpecificInsights name industry wd).brandPersonality ≠ ""
    ∧ (generateIndustrySpecificInsights name industry wd).marketPosition ≠ "" := by
  unfold generateIndustrySpecificInsights
  split <;>
    refine ⟨?_, ?_, ?_, ?_, ?_, ?_, ?_, ?_, ?_, ?_, ?_⟩ <;>
    simp only [healthcareInsights, technologyInsights] <;>
    first
      | exact append_ne_empty_of_right _ _ (by decide)
      | simp

/-- Every insight field of the comprehensive fallback is populated with
a non-empty value, and its score is at least 60. -/
theorem comprehensive_fallback_populated (r : Nat) (wd : WebsiteData)
    (va : VisualAssets) (name : String) :
    (generateComprehensiveFallbackInsights r wd va name).strengths ≠ []
    ∧ (generateComprehensiveFallbackInsights r wd va name).weaknesses ≠ []
    ∧ (generateComprehensiveFallbackInsights r wd va name).opportunities ≠ []
    ∧ (generateComprehensiveFallbackInsights r wd va name).threats ≠ []
    ∧ (generateComprehensiveFallbackInsights r wd va name).recommendations ≠ []
    ∧ (generateComprehensiveFallbackInsights r wd va name).description ≠ ""
    ∧ (generateComprehensiveFallbackInsights r wd va name).positioning ≠ ""
    ∧ (generateComprehensiveFallbackInsights r wd va name).valueProposition ≠ ""
    ∧ (generateComprehensiveFallbackInsights r wd va name).targetAudience ≠ ""
    ∧ (generateComprehensiveFallbackInsights r wd va name).brandPersonality ≠ ""
    ∧ (generateComprehensiveFallbackInsights r wd va name).marketPosition ≠ ""
    ∧ (generateComprehensiveFallbackInsights r wd va name).industry ≠ ""
    ∧ 60 ≤ (generateComprehensiveFallbackInsights r wd va name).overallScore := by
  unfold generateComprehensiveFallbackInsights
  dsimp only
  have hins := industry_insights_populated name
    (if strEmpty wd.detectedIndustry then "Technology" else wd.detectedIndustry) wd
  refine ⟨hins.1, hins.2.1, hins.2.2.1, hins.2.2.2.1, hins.2.2.2.2.1,
    hins.2.2.2.2.2.1, hins.2.2.2.2.2.2.1, hins.2.2.2.2.2.2.2.1,
    hins.2.2.2.2.2.2.2.2.1, hins.2.2.2.2.2.2.2.2.2.1,
    hins.2.2.2.2.2.2.2.2.2.2, ?_, ?_⟩
  · split
    · simp
    · next hne =>
      intro he
      apply hne
      rw [he]
      rfl
  · dsimp only [calculateRealisticScores]
    exact Nat.le_max_left _ _

/-- C10: the AI insight generator is total at its public interface, and
whenever no credential is configured or the OpenAI call/parse fails, it
resolves to the comprehensive fallback, in which every insight field is
populated with a non-empty value and the score is at least 60 (the
last-resort basic fallback is likewise fully populated, with score 75). -/
theorem c10_ai_insights_total_fallback (hasKey : Bool)
    (oracle : Except String AIInsights) (r : Nat) (wd : WebsiteData)
    (va : VisualAssets) (name : String)
    (h : hasKey = false ∨ ∃ e, oracle = Except.error e) :
    generateAIInsights hasKey oracle r wd va name
        = generateComprehensiveFallbackInsights r wd va name
    ∧ (generateAIInsights hasKey oracle r wd va name).strengths ≠ []
    ∧ (generateAIInsights hasKey oracle r wd va name).weaknesses ≠ []
    ∧ (generateAIInsights hasKey oracle r wd va name).opportunities ≠ []
    ∧ (generateAIInsights hasKey oracle r wd va name).threats ≠ []
    ∧ (generateAIInsights hasKey oracle r wd va name).recommendations ≠ []
    ∧ (generateAIInsights hasKey oracle r wd va name).description ≠ ""
    ∧ (generateAIInsights hasKey oracle r wd va name).positioning ≠ ""
    ∧ (generateAIInsights hasKey oracle r wd va name).industry ≠ ""
    ∧ 60 ≤ (generateAIInsights hasKey oracle r wd va name).overallScore
    ∧ (generateBasicFallbackInsights name).strengths ≠ []
    ∧ (generateBasicFallbackInsights name).overallScore = 75 := by
  have heq : generateAIInsights hasKey oracle r wd va name
      = generateComprehensiveFallbackInsights r wd va name := by
    rcases h with h | ⟨e, he⟩
    · subst h; rfl
    · subst he; cases hasKey <;> rfl
  have hfields := comprehensive_fallback_populated r wd va name
  rw [heq]
  exact ⟨rfl, hfields.1, hfields.2.1, hfields.2.2.1, hfields.2.2.2.1,
    hfields.2.2.2.2.1, hfields.2.2.2.2.2.1, hfields.2.2.2.2.2.2.1,
    hfields.2.2.2.2.2.2.2.2.2.2.2.1, hfields.2.2.2.2.2.2.2.2.2.2.2.2,
    by simp [generateBasicFallbackInsights], rfl⟩

theorem c10_ai_insights_total_fallback_witness :
    (false = false ∨ ∃ e, (Except.error "api down" : Except String AIInsights)
        = Except.error e)
    ∧ generateAIInsights false (Except.error "api down") 0 wd0 va0 "acme"
        = generateComprehensiveFallbackInsights 0 wd0 va0 "acme"
    ∧ (generateAIInsights false (Except.error "api down") 0 wd0 va0 "acme").strengths ≠ [] :=
  ⟨Or.inl rfl,
   (c10_ai_insights_total_fallback false (Except.error "api down") 0 wd0 va0 "acme"
     (Or.inl rfl)).1,
   (c10_ai_insights_total_fallback false (Except.error "api down") 0 wd0 va0 "acme"
     (Or.inl rfl)).2.1⟩

end BrandAudit
